import Mathlib

/-!
Verification of the buscapi pipeline core: the crewai flow in
flows/ip_flow.py, the stage executor in tasks/ip_tasks.py, the raw-result
persistence in database/persist_dados.py and the asynchronous PDF job
queue in tasks/pdf_worker.py.

The Python code is shallowly embedded: Python dicts and json.loads values
become the inductive `Json`; `json.loads` is embedded as the executable
`jsonParse` (integers, strings without escapes, arrays, objects — the
fragment the payloads in question use); exceptions become `Option`/`Except`
results; calls into external collaborators (crewai tools, the LLM agents,
psycopg2, the filesystem clock and uuid source) are oracle parameters that
each theorem quantifies over.  Audit-log writes that happen inside `except`
handlers are modelled as succeeding: their failure would propagate into the
crewai framework, outside the embedded code.
-/

/-- A Python value as produced by json.loads: None, bool, int, str, list,
dict (insertion-ordered association list with unique keys). -/
inductive Json where
  | null
  | bool (b : Bool)
  | num (n : Int)
  | str (s : String)
  | arr (xs : List Json)
  | obj (kvs : List (String × Json))

/-- Python len(x) for a decoded value: defined for list, dict and str,
raises (none) for the other types. -/
def pyLen : Json → Option Nat
  | .arr xs => some xs.length
  | .obj kvs => some kvs.length
  | .str s => some s.length
  | _ => none

/-- The Python type name of a decoded value, used in error messages. -/
def pyTypeName : Json → String
  | .null => "NoneType"
  | .bool _ => "bool"
  | .num _ => "int"
  | .str _ => "str"
  | .arr _ => "list"
  | .obj _ => "dict"

/-- Lookup in a Python dict (first binding wins; dict keys are unique). -/
def dictLookup (d : List (String × Json)) (k : String) : Option Json :=
  (d.find? (fun p => p.1 = k)).map (fun p => p.2)

/-- Python d[k] = v: overwrite the existing binding in place, else append
(Python dicts keep insertion order). -/
def dictSet (d : List (String × Json)) (k : String) (v : Json) : List (String × Json) :=
  if (d.find? (fun p => p.1 = k)).isSome then
    d.map (fun p => if p.1 = k then (k, v) else p)
  else d ++ [(k, v)]

/-- Python x.get(k, dflt): some value for a dict, none (AttributeError)
for every other type. -/
def pyDictGet (j : Json) (k : String) (dflt : Json) : Option Json :=
  match j with
  | .obj kvs => some ((dictLookup kvs k).getD dflt)
  | _ => none

/-- Python truthiness of a decoded value. -/
def jsonTruthy : Json → Bool
  | .null => false
  | .bool b => b
  | .num n => if n = 0 then false else true
  | .str s => if s = "" then false else true
  | .arr xs => if xs.isEmpty then false else true
  | .obj kvs => if kvs.isEmpty then false else true

/-- Truthiness of a Python Optional[str]: None and the empty string are falsy. -/
def optStrTruthy : Option String → Bool
  | none => false
  | some s => if s = "" then false else true

/-- Truthiness of a Python Optional[int]: None and 0 are falsy. -/
def optIntTruthy : Option Int → Bool
  | none => false
  | some n => if n = 0 then false else true

/-! ### An executable json.loads for the fragment the payloads use -/

def quoteChar : Char := Char.ofNat 34

def lbraceChar : Char := Char.ofNat 123

def rbraceChar : Char := Char.ofNat 125

def isWsChar (c : Char) : Bool := c = ' ' || c = '\n' || c = '\t' || c = '\r'

def skipWs (cs : List Char) : List Char := cs.dropWhile isWsChar

/-- Read the chars of a string literal up to the closing quote. -/
def takeStr : List Char → Option (String × List Char)
  | [] => none
  | c :: rest =>
    if c = quoteChar then some ("", rest)
    else
      match takeStr rest with
      | some (s, r) => some (String.mk (c :: s.data), r)
      | none => none

def digitsVal (ds : List Char) : Nat := ds.foldl (fun a c => a * 10 + (c.toNat - 48)) 0

/-- Read an optionally signed integer literal. -/
def takeNum (cs : List Char) : Option (Int × List Char) :=
  match cs with
  | '-' :: rest =>
    let ds := rest.takeWhile Char.isDigit
    if ds.isEmpty then none
    else some (-(Int.ofNat (digitsVal ds)), rest.dropWhile Char.isDigit)
  | _ =>
    let ds := cs.takeWhile Char.isDigit
    if ds.isEmpty then none
    else some (Int.ofNat (digitsVal ds), cs.dropWhile Char.isDigit)

mutual

def parseVal : Nat → List Char → Option (Json × List Char)
  | 0, _ => none
  | f + 1, cs0 =>
    match skipWs cs0 with
    | [] => none
    | c :: rest =>
      if c = 'n' then
        match rest with
        | 'u' :: 'l' :: 'l' :: r => some (.null, r)
        | _ => none
      else if c = 't' then
        match rest with
        | 'r' :: 'u' :: 'e' :: r => some (.bool true, r)
        | _ => none
      else if c = 'f' then
        match rest with
        | 'a' :: 'l' :: 's' :: 'e' :: r => some (.bool false, r)
        | _ => none
      else if c = quoteChar then
        match takeStr rest with
        | some (s, r) => some (.str s, r)
        | none => none
      else if c = '[' then
        match skipWs rest with
        | c2 :: r2 =>
          if c2 = ']' then some (.arr [], r2)
          else
            match parseArrItems f (c2 :: r2) with
            | some (xs, r3) => some (.arr xs, r3)
            | none => none
        | [] => none
      else if c = lbraceChar then
        match skipWs rest with
        | c2 :: r2 =>
          if c2 = rbraceChar then some (.obj [], r2)
          else
            match parseObjItems f (c2 :: r2) with
            | some (kvs, r3) => some (.obj kvs, r3)
            | none => none
        | [] => none
      else
        match takeNum (c :: rest) with
        | some (n, r) => some (.num n, r)
        | none => none

def parseArrItems : Nat → List Char → Option (List Json × List Char)
  | 0, _ => none
  | f + 1, cs =>
    match parseVal f cs with
    | none => none
    | some (v, r) =>
      match skipWs r with
      | c :: r2 =>
        if c = ',' then
          match parseArrItems f r2 with
          | some (vs, r3) => some (v :: vs, r3)
          | none => none
        else if c = ']' then some ([v], r2)
        else none
      | [] => none

def parseObjItems : Nat → List Char → Option (List (String × Json) × List Char)
  | 0, _ => none
  | f + 1, cs =>
    match skipWs cs with
    | c :: rest =>
      if c = quoteChar then
        match takeStr rest with
        | some (k, r) =>
          match skipWs r with
          | c2 :: r2 =>
            if c2 = ':' then
              match parseVal f r2 with
              | none => none
              | some (v, r3) =>
                match skipWs r3 with
                | c3 :: r4 =>
                  if c3 = ',' then
                    match parseObjItems f r4 with
                    | some (kvs, r5) => some ((k, v) :: kvs, r5)
                    | none => none
                  else if c3 = rbraceChar then some ([(k, v)], r4)
                  else none
                | [] => none
            else none
          | [] => none
        | none => none
      else none
    | [] => none

end

/-- json.loads: parse the whole string, none models a raised
JSONDecodeError. -/
def jsonParse (s : String) : Option Json :=
  match parseVal (s.length + 1) s.data with
  | some (v, r) => if (skipWs r).isEmpty then some v else none
  | none => none

/-! ### tasks/ip_tasks.py — IPTaskManager.execute_task -/

/-- The value a crewai tool returns from one invocation: either a Python
str, or a non-str value together with its json.dumps encoding (none when
json.dumps raises) and its str() representation. -/
inductive PyValue where
  | pstr (s : String)
  | other (dumps : Option String) (strRepr : String)

/-- Output normalisation of execute_task (ip_tasks.py lines 187 to 192):
a str passes through, otherwise json.dumps, otherwise str(). -/
def normalizeOut : PyValue → String
  | .pstr s => s
  | .other (some j) _ => j
  | .other none r => r

/-- One interchangeable tool attached to an agent.  Its behaviour per
attempt is the oracle `run` indexed by the attempt number (the input
string the source passes is closed over inside the oracle). -/
structure PyTool where
  clsName : String
  toolName : Option String
  run : Nat → Except String PyValue

/-- Tool selection of execute_task (ip_tasks.py lines 157 to 177): by
class, then by (lower-cased) name or class name, then the first tool. -/
def chooseTool (tools : List PyTool) (prefCls : Option String) (prefName : Option String) :
    Option PyTool :=
  let byCls :=
    match prefCls with
    | some c => tools.find? (fun (t : PyTool) => t.clsName = c)
    | none => none
  match byCls with
  | some t => some t
  | none =>
    let byName :=
      match prefName with
      | some n =>
        tools.find? (fun (t : PyTool) =>
          (match t.toolName with
           | some nm => nm.toLower = n.toLower
           | none => false)
          || t.clsName.toLower = n.toLower)
      | none => none
    match byName with
    | some t => some t
    | none => tools.head?

/-- The retry loop of execute_task: `idx` is the number of invocations
made so far, `fuel` the attempts remaining, `last` the last exception.
Returns the normalised result or the last error, with the total number
of invocations made. -/
def execAttemptsGo (run : Nat → Except String PyValue) :
    Nat → Nat → Option String → Except String String × Nat
  | idx, 0, last => (.error (last.getD "None"), idx)
  | idx, f + 1, _ =>
    match run idx with
    | .ok v => (.ok (normalizeOut v), idx + 1)
    | .error e => execAttemptsGo run (idx + 1) f (some e)

/-- The attempt loop of execute_task (ip_tasks.py lines 182 to 198):
range(1, max(1, retries) + 1) attempts; after the loop a RuntimeError
carrying the last exception is raised. -/
def runToolAttempts (run : Nat → Except String PyValue) (retries : Nat) :
    Except String String × Nat :=
  let r := execAttemptsGo run 0 (max 1 retries) none
  match r.1 with
  | .ok s => (.ok s, r.2)
  | .error last =>
    (.error ("Falha ao executar a task após " ++ toString retries ++ " tentativas: " ++ last),
     r.2)

/-- IPTaskManager.execute_task: select a tool, then run the attempt loop.
The error before any attempt models the RuntimeError raised when the agent
has no tool. -/
def execute_task (tools : List PyTool) (prefCls prefName : Option String) (retries : Nat) :
    Except String String × Nat :=
  match chooseTool tools prefCls prefName with
  | none => (.error "Agent não possui ferramenta executável", 0)
  | some t => runToolAttempts t.run retries

/-- The result component of the attempt loop, as the flow stages see it. -/
def execTaskResult (run : Nat → Except String PyValue) (retries : Nat) :
    Except String String :=
  (runToolAttempts run retries).1

theorem execAttemptsGo_fail (run : Nat → Except String PyValue) (es : Nat → String) :
    ∀ f idx last, 0 < f → (∀ k, k < f → run (idx + k) = .error (es (idx + k))) →
      execAttemptsGo run idx f last = (.error (es (idx + f - 1)), idx + f) := by
  intro f
  induction f with
  | zero => intro idx last h _; omega
  | succ n ih =>
    intro idx last _ hall
    have h0 : run idx = .error (es idx) := by simpa using hall 0 (by omega)
    cases n with
    | zero => simp [execAttemptsGo, h0]
    | succ m =>
      have hrec := ih (idx + 1) (some (es idx)) (by omega) (fun k hk => by
        have := hall (k + 1) (by omega)
        simpa [Nat.add_assoc, Nat.add_comm 1 k] using this)
      have e1 : idx + 1 + (m + 1) - 1 = idx + (m + 1 + 1) - 1 := by omega
      have e2 : idx + 1 + (m + 1) = idx + (m + 1 + 1) := by omega
      rw [e1, e2] at hrec
      simpa [execAttemptsGo, h0] using hrec

/-- C6 (corrected): when every invocation of the chosen capability raises,
execute_task invokes the capability max(1, retries) times in total — not
1 + retries times — and then raises an error whose message carries the
last exception.  (The fixed 0.2 second sleep after each failed attempt is
timing behaviour, not modelled.) -/
theorem execute_task_retries_exhausted (tools : List PyTool) (prefCls prefName : Option String)
    (retries : Nat) (t : PyTool) (es : Nat → String)
    (hsel : chooseTool tools prefCls prefName = some t)
    (hfail : ∀ k, k < max 1 retries → t.run k = .error (es k)) :
    execute_task tools prefCls prefName retries =
      (.error ("Falha ao executar a task após " ++ toString retries ++ " tentativas: " ++
        es (max 1 retries - 1)), max 1 retries) := by
  have hall : ∀ k, k < max 1 retries → t.run (0 + k) = .error (es (0 + k)) := by
    intro k hk; simpa using hfail k hk
  have hgo := execAttemptsGo_fail t.run es (max 1 retries) 0 none (by omega) hall
  simp only [Nat.zero_add] at hgo
  simp [execute_task, hsel, runToolAttempts, hgo]

/-- Witness for execute_task_retries_exhausted: a single always-failing
tool with retry budget 3 is invoked 3 times and the raised error carries
the last exception. -/
theorem execute_task_retries_exhausted_witness :
    execute_task [⟨"ToolA", some "a", fun k => .error ("boom" ++ toString k)⟩] none none 3 =
      (.error ("Falha ao executar a task após 3 tentativas: boom2"), 3) := by
  have h := execute_task_retries_exhausted
    [⟨"ToolA", some "a", fun k => .error ("boom" ++ toString k)⟩] none none 3
    ⟨"ToolA", some "a", fun k => .error ("boom" ++ toString k)⟩
    (fun k => "boom" ++ toString k) rfl (fun k _ => rfl)
  simpa using h

/-- C6 counterexample: with retry budget 2 and an always-failing tool the
capability is invoked exactly 2 times, not the 1 + 2 = 3 times the claim
states ("invoked once and then retried up to r more times"). -/
theorem execute_task_retry_count_cex :
    (execute_task [⟨"ToolA", none, fun _ => .error "x"⟩] none none 2).2 = 2 ∧
      ¬ (execute_task [⟨"ToolA", none, fun _ => .error "x"⟩] none none 2).2 = 2 + 1 := by
  exact ⟨rfl, by decide⟩

/-- C9 (confirmed): when an attempt of the chosen capability succeeds with
value v after a failing prefix, the executor returns normalizeOut v: a str
passes through unchanged, a non-str value is replaced by its json.dumps
serialization, and when serialization fails by its str() representation. -/
theorem execute_task_normalizes_output (run : Nat → Except String PyValue)
    (retries k : Nat) (v : PyValue) (es : Nat → String)
    (hk : k < max 1 retries)
    (hpre : ∀ j, j < k → run j = .error (es j))
    (hok : run k = .ok v) :
    execTaskResult run retries = .ok (normalizeOut v) ∧
      (∀ s, v = .pstr s → normalizeOut v = s) ∧
      (∀ js r, v = .other (some js) r → normalizeOut v = js) ∧
      (∀ r, v = .other none r → normalizeOut v = r) := by
  refine ⟨?_, ?_, ?_, ?_⟩
  · have hgo : ∀ f idx last, idx + f = max 1 retries → k < idx + f → idx ≤ k →
        (∀ j, idx ≤ j → j < k → run j = .error (es j)) →
        (execAttemptsGo run idx f last).1 = .ok (normalizeOut v) := by
      intro f
      induction f with
      | zero => intro idx last _ h2 h3 _; omega
      | succ n ih =>
        intro idx last h1 h2 h3 hfails
        by_cases hik : idx = k
        · subst hik
          simp [execAttemptsGo, hok]
        · have hrun : run idx = .error (es idx) := hfails idx (le_refl idx) (by omega)
          have := ih (idx + 1) (some (es idx)) (by omega) (by omega) (by omega)
            (fun j hj hjk => hfails j (by omega) hjk)
          simpa [execAttemptsGo, hrun] using this
    have hfin := hgo (max 1 retries) 0 none (by omega) (by omega) (by omega)
      (fun j _ hj => hpre j hj)
    rcases hgoeq : execAttemptsGo run 0 (max 1 retries) none with ⟨r1, r2⟩
    rw [hgoeq] at hfin
    simp only at hfin
    simp [execTaskResult, runToolAttempts, hgoeq, hfin]
  · intro s hv; subst hv; rfl
  · intro js r hv; subst hv; rfl
  · intro r hv; subst hv; rfl

/-- Witness for execute_task_normalizes_output: attempt 0 fails, attempt 1
returns a non-str value whose serialization succeeds; the executor result
is that serialization. -/
theorem execute_task_normalizes_output_witness :
    execTaskResult
      (fun k => if k = 0 then .error "e0" else .ok (.other (some "[1]") "obj"))
      2 = .ok "[1]" := by
  have h := execute_task_normalizes_output
    (fun k => if k = 0 then .error "e0" else .ok (.other (some "[1]") "obj"))
    2 1 (.other (some "[1]") "obj") (fun _ => "e0")
    (by omega) (fun j hj => by interval_cases j; rfl) rfl
  exact h.1

/-! ### database/persist_dados.py — BuscapiDB.insert_search_result_raw -/

/-- One row of the search_result_raw table.  raw_json stores the item dict
(with its "_hash" key) as psycopg2 would serialise it. -/
structure RawRow where
  id : Int
  search_query_id : Int
  source : String
  raw_json : List (String × Json)

/-- The search_result_raw table with the id sequence. -/
structure RawStore where
  rows : List RawRow
  nextId : Int

/-- Where insert_search_result_raw can fail internally: hashing the dict
(json.dumps of a non-serialisable value), the duplicate-lookup SELECT, or
the INSERT.  none means the step succeeds. -/
structure DbOutcome where
  hashErr : Option String
  lookupErr : Option String
  insertErr : Option String
deriving DecidableEq

/-- All database steps succeed. -/
def dbOk : DbOutcome := ⟨none, none, none⟩

/-- The stored value at key k is the string s (the containment test
raw_json::jsonb @> a json with only the _hash key). -/
def isStrVal (o : Option Json) (s : String) : Bool :=
  match o with
  | some (.str t) => t = s
  | _ => false

/-- The WHERE clause of the duplicate lookup: same search_query_id and the
stored raw_json contains the pair _hash = h. -/
def rowMatches (sqid : Int) (h : String) (r : RawRow) : Bool :=
  decide (r.search_query_id = sqid) && isStrVal (dictLookup r.raw_json "_hash") h

/-- BuscapiDB.insert_search_result_raw (persist_dados.py lines 36 to 72):
hash the item, write the hash into the caller's dict, look the pair up,
return the existing id or insert; any exception rolls back and returns -1.
hashFn is sha256 of the canonical (sort_keys) json.dumps, an oracle here.
Returns (the returned id, the store after, the caller's dict after). -/
def insert_search_result_raw (hashFn : List (String × Json) → String) (oc : DbOutcome)
    (st : RawStore) (sqid : Int) (source : String) (raw_data : List (String × Json)) :
    Int × RawStore × List (String × Json) :=
  match oc.hashErr with
  | some _ => (-1, st, raw_data)
  | none =>
    let h := hashFn raw_data
    let d := dictSet raw_data "_hash" (.str h)
    match oc.lookupErr with
    | some _ => (-1, st, d)
    | none =>
      match st.rows.find? (rowMatches sqid h) with
      | some r => (r.id, st, d)
      | none =>
        match oc.insertErr with
        | some _ => (-1, st, d)
        | none =>
          (st.nextId, ⟨st.rows ++ [⟨st.nextId, sqid, source, d⟩], st.nextId + 1⟩, d)

theorem dictSet_cons_ne (p : String × Json) (ps : List (String × Json)) (k : String)
    (v : Json) (hp : ¬ p.1 = k) : dictSet (p :: ps) k v = p :: dictSet ps k v := by
  unfold dictSet
  rw [List.find?_cons_of_neg _ (by simpa using hp)]
  by_cases hs : (ps.find? (fun q => q.1 = k)).isSome
  · simp [hs, hp]
  · simp [hs, hp]

theorem dictLookup_dictSet (d : List (String × Json)) (k : String) (v : Json) :
    dictLookup (dictSet d k v) k = some v := by
  induction d with
  | nil => simp [dictSet, dictLookup]
  | cons p ps ih =>
    by_cases hp : p.1 = k
    · unfold dictSet
      rw [List.find?_cons_of_pos _ (by simpa using hp)]
      simp [dictLookup, List.find?_cons, hp]
    · rw [dictSet_cons_ne p ps k v hp]
      simpa [dictLookup, List.find?_cons, hp] using ih

/-- C3 (confirmed): inserting content with the same content hash twice for
the same search_query_id (all database steps succeeding) makes
insert_search_result_raw return the same row id both times, adds no second
row, and — when the store held no row for the (search_query_id, hash) pair
— leaves exactly one row for the pair. -/
theorem insert_raw_idempotent (hashFn : List (String × Json) → String) (st : RawStore)
    (sqid : Int) (src1 src2 : String) (d1 d2 : List (String × Json))
    (hh : hashFn d2 = hashFn d1)
    (hfresh : st.rows.find? (rowMatches sqid (hashFn d1)) = none) :
    (insert_search_result_raw hashFn dbOk st sqid src1 d1).1 =
      (insert_search_result_raw hashFn dbOk
        (insert_search_result_raw hashFn dbOk st sqid src1 d1).2.1 sqid src2 d2).1 ∧
    (insert_search_result_raw hashFn dbOk
        (insert_search_result_raw hashFn dbOk st sqid src1 d1).2.1 sqid src2 d2).2.1.rows =
      (insert_search_result_raw hashFn dbOk st sqid src1 d1).2.1.rows ∧
    ((insert_search_result_raw hashFn dbOk st sqid src1 d1).2.1.rows.filter
        (rowMatches sqid (hashFn d1))).length = 1 := by
  have hmatch : rowMatches sqid (hashFn d1)
      ⟨st.nextId, sqid, src1, dictSet d1 "_hash" (.str (hashFn d1))⟩ = true := by
    unfold rowMatches
    rw [dictLookup_dictSet]
    simp [isStrVal]
  have hfirst : insert_search_result_raw hashFn dbOk st sqid src1 d1 =
      (st.nextId,
       ⟨st.rows ++ [⟨st.nextId, sqid, src1, dictSet d1 "_hash" (.str (hashFn d1))⟩],
        st.nextId + 1⟩,
       dictSet d1 "_hash" (.str (hashFn d1))) := by
    simp [insert_search_result_raw, dbOk, hfresh]
  have hfind2 :
      (st.rows ++
          [(⟨st.nextId, sqid, src1, dictSet d1 "_hash" (.str (hashFn d1))⟩ : RawRow)]).find?
        (rowMatches sqid (hashFn d1)) =
      some (⟨st.nextId, sqid, src1, dictSet d1 "_hash" (.str (hashFn d1))⟩ : RawRow) := by
    rw [List.find?_append, hfresh]
    simp [hmatch]
  have hfilter : st.rows.filter (rowMatches sqid (hashFn d1)) = [] := by
    rw [List.filter_eq_nil_iff]
    intro a ha
    have := List.find?_eq_none.mp hfresh a ha
    simpa using this
  refine ⟨?_, ?_, ?_⟩
  · rw [hfirst]
    simp [insert_search_result_raw, dbOk, hh, hfind2]
  · rw [hfirst]
    simp [insert_search_result_raw, dbOk, hh, hfind2]
  · rw [hfirst]
    simp [List.filter_append, hfilter, hmatch]

/-- Witness for insert_raw_idempotent at a concrete store, hash oracle and
item: both calls return id 1 and one row holds the pair. -/
theorem insert_raw_idempotent_witness :
    (insert_search_result_raw (fun d => toString d.length) dbOk ⟨[], 1⟩ 7 "web"
        [("a", Json.num 1)]).1 =
      (insert_search_result_raw (fun d => toString d.length) dbOk
        (insert_search_result_raw (fun d => toString d.length) dbOk ⟨[], 1⟩ 7 "web"
          [("a", Json.num 1)]).2.1 7 "web2" [("a", Json.num 1)]).1 ∧
    (insert_search_result_raw (fun d => toString d.length) dbOk
        (insert_search_result_raw (fun d => toString d.length) dbOk ⟨[], 1⟩ 7 "web"
          [("a", Json.num 1)]).2.1 7 "web2" [("a", Json.num 1)]).2.1.rows =
      (insert_search_result_raw (fun d => toString d.length) dbOk ⟨[], 1⟩ 7 "web"
        [("a", Json.num 1)]).2.1.rows ∧
    ((insert_search_result_raw (fun d => toString d.length) dbOk ⟨[], 1⟩ 7 "web"
        [("a", Json.num 1)]).2.1.rows.filter
          (rowMatches 7 ((fun (d : List (String × Json)) => toString d.length)
            [("a", Json.num 1)]))).length = 1 := by
  exact insert_raw_idempotent (fun d => toString d.length) ⟨[], 1⟩ 7 "web" "web2"
    [("a", Json.num 1)] [("a", Json.num 1)] rfl rfl

/-- C10 (confirmed): insert_search_result_raw is total at its interface —
it always returns an integer: the existing or fresh row id (at least 1 for
a well-formed store) on success and the sentinel -1 on any internal
failure, with the store left unchanged (rolled back) whenever -1 is
returned; when hashing succeeds, the caller's dict is returned with the
_hash key set, as it is persisted. -/
theorem insert_raw_total (hashFn : List (String × Json) → String) (oc : DbOutcome)
    (st : RawStore) (sqid : Int) (src : String) (d : List (String × Json))
    (hrows : ∀ r, r ∈ st.rows → 1 ≤ r.id) (hnext : 1 ≤ st.nextId) :
    ((insert_search_result_raw hashFn oc st sqid src d).1 = -1 ∨
      1 ≤ (insert_search_result_raw hashFn oc st sqid src d).1) ∧
    ((insert_search_result_raw hashFn oc st sqid src d).1 = -1 →
      (insert_search_result_raw hashFn oc st sqid src d).2.1 = st) ∧
    (oc.hashErr = none →
      (insert_search_result_raw hashFn oc st sqid src d).2.2 =
        dictSet d "_hash" (.str (hashFn d))) ∧
    (oc = dbOk → 1 ≤ (insert_search_result_raw hashFn oc st sqid src d).1) := by
  rcases oc with ⟨he, hl, hi⟩
  cases he with
  | some e =>
    refine ⟨Or.inl rfl, fun _ => rfl, fun h => by simp at h, fun h => by simp [dbOk] at h⟩
  | none =>
    cases hl with
    | some e =>
      refine ⟨Or.inl rfl, fun _ => rfl, fun _ => rfl, fun h => by simp [dbOk] at h⟩
    | none =>
      cases hfind : st.rows.find? (rowMatches sqid (hashFn d)) with
      | some r =>
        have hid : 1 ≤ r.id := hrows r (List.mem_of_find?_eq_some hfind)
        refine ⟨Or.inr ?_, fun hneg => ?_, fun _ => ?_, fun _ => ?_⟩
        · simpa [insert_search_result_raw, hfind] using hid
        · simp [insert_search_result_raw, hfind]
        · simp [insert_search_result_raw, hfind]
        · simpa [insert_search_result_raw, hfind] using hid
      | none =>
        cases hi with
        | some e =>
          refine ⟨Or.inl ?_, fun hneg => ?_, fun _ => ?_, fun h => by simp [dbOk] at h⟩
          · simp [insert_search_result_raw, hfind]
          · simp [insert_search_result_raw, hfind]
          · simp [insert_search_result_raw, hfind]
        | none =>
          refine ⟨Or.inr ?_, fun hneg => ?_, fun _ => ?_, fun _ => ?_⟩
          · simpa [insert_search_result_raw, hfind] using hnext
          · exfalso
            have : st.nextId = -1 := by
              simpa [insert_search_result_raw, hfind] using hneg
            omega
          · simp [insert_search_result_raw, hfind]
          · simpa [insert_search_result_raw, hfind] using hnext

/-- Witness for insert_raw_total: a fresh empty store and succeeding
database steps; the call returns id 1, the mutated dict and no rollback. -/
theorem insert_raw_total_witness :
    ((insert_search_result_raw (fun d => toString d.length) dbOk ⟨[], 1⟩ 7 "web"
        [("a", Json.num 1)]).1 = -1 ∨
      1 ≤ (insert_search_result_raw (fun d => toString d.length) dbOk ⟨[], 1⟩ 7 "web"
        [("a", Json.num 1)]).1) ∧
    ((insert_search_result_raw (fun d => toString d.length) dbOk ⟨[], 1⟩ 7 "web"
        [("a", Json.num 1)]).1 = -1 →
      (insert_search_result_raw (fun d => toString d.length) dbOk ⟨[], 1⟩ 7 "web"
        [("a", Json.num 1)]).2.1 = ⟨[], 1⟩) ∧
    (dbOk.hashErr = none →
      (insert_search_result_raw (fun d => toString d.length) dbOk ⟨[], 1⟩ 7 "web"
        [("a", Json.num 1)]).2.2 =
        dictSet [("a", Json.num 1)] "_hash"
          (.str ((fun (d : List (String × Json)) => toString d.length) [("a", Json.num 1)]))) ∧
    (dbOk = dbOk → 1 ≤ (insert_search_result_raw (fun d => toString d.length) dbOk ⟨[], 1⟩
        7 "web" [("a", Json.num 1)]).1) := by
  exact insert_raw_total (fun d => toString d.length) dbOk ⟨[], 1⟩ 7 "web"
    [("a", Json.num 1)] (fun r hr => by simp at hr) (by norm_num)

/-! ### tasks/pdf_worker.py — JobStore, worker and queue -/

/-- Report-job metadata, the dict persisted per job; an absent key is none.
output_path and error hold whatever json value the tool response carried. -/
structure JobMeta where
  job_id : Option String
  status : Option String
  output_path : Option Json
  queued_at : Option String
  started_at : Option String
  completed_at : Option String
  search_query_id : Option Int
  llm_model : Option Json
  error : Option Json

/-- The empty dict _jobs.get(job_id, ...) falls back to. -/
def emptyMeta : JobMeta := ⟨none, none, none, none, none, none, none, none, none⟩

/-- The in-memory _jobs dict and the JOBS_DIR file store; assignment
shadows, lookup takes the newest binding. -/
abbrev JobsMap := List (String × JobMeta)

def jget (m : JobsMap) (k : String) : Option JobMeta :=
  (m.find? (fun p => p.1 = k)).map (fun p => p.2)

def jset (m : JobsMap) (k : String) (v : JobMeta) : JobsMap := (k, v) :: m

/-- The interactions of one worker execution: the PDFReportTool response
(error means the tool raised) and the two utcnow timestamps. -/
structure PdfRunOutcome where
  toolResp : Except String String
  startedTs : String
  completedTs : String

/-- Message of the AttributeError raised by calling .get on a non-dict
(punctuation simplified). -/
def pyGetAttrErr (j : Json) : String := pyTypeName j ++ " object has no attribute get"


theorem jget_jset (m : JobsMap) (k : String) (v : JobMeta) : jget (jset m k v) k = some v := by
  unfold jget jset
  rw [List.find?_cons_of_pos _ (by simp)]
  rfl

/-- The metadata written when the worker picks the job up: status
processing with started_at (pdf_worker.py lines 34 to 37). -/
def pdfMeta1 (o : PdfRunOutcome) (jobs : JobsMap) (job_id : String) : JobMeta :=
  { (jget jobs job_id).getD emptyMeta with
    status := some "processing"
    started_at := some o.startedTs }

/-- json.loads of the tool response, with the invalid_response fallback
dict (pdf_worker.py lines 91 to 94). -/
def pdfParsed (resp : String) : Json :=
  match jsonParse resp with
  | some j => j
  | none => .obj [("error", .str "invalid_response"), ("raw", .str resp)]

/-- The terminal metadata of one worker execution (pdf_worker.py lines 39
to 120): completed with the returned path when the parsed response has a
truthy path key, failed with an error value otherwise — also when the
rendering tool raised, and when .get raised on a non-dict response. -/
def pdfMetaFinal (o : PdfRunOutcome) (m1 : JobMeta) : JobMeta :=
  match o.toolResp with
  | .error e =>
    { m1 with
      status := some "failed"
      error := some (.str e)
      completed_at := some o.completedTs }
  | .ok resp =>
    let parsed := pdfParsed resp
    match pyDictGet parsed "path" .null with
    | none =>
      { m1 with
        status := some "failed"
        error := some (.str (pyGetAttrErr parsed))
        completed_at := some o.completedTs }
    | some pathVal =>
      if jsonTruthy pathVal then
        { m1 with
          status := some "completed"
          output_path := some pathVal
          completed_at := some o.completedTs }
      else
        let ev := (pyDictGet parsed "error" .null).getD .null
        { m1 with
          status := some "failed"
          error := some (if jsonTruthy ev then ev else parsed)
          completed_at := some o.completedTs }

/-- _run_pdf_job (pdf_worker.py lines 33 to 125): mark processing, call the
rendering tool, parse its response, end terminal; the finally block merges
the extra metadata and writes the memory index and the file store.  The
visualization-normalisation block only rewrites the payload handed to the
external tool (an oracle here) and swallows its own exceptions, so it
leaves no trace in the job metadata; the best-effort DB log writes are
swallowed likewise.  Returns the in-memory index and the durable store. -/
def run_pdf_job (o : PdfRunOutcome) (jobs files : JobsMap) (job_id : String)
    (_results : Json) (_output_path : String) (extra_sqid : Option Int)
    (extra_llm : Option Json) : JobsMap × JobsMap :=
  let meta1 := pdfMeta1 o jobs job_id
  let jobs1 := jset jobs job_id meta1
  let files1 := jset files job_id meta1
  let metaG :=
    { pdfMetaFinal o meta1 with
      search_query_id := extra_sqid
      llm_model := extra_llm }
  (jset jobs1 job_id metaG, jset files1 job_id metaG)

/-- The oracle inputs of enqueue_pdf_job: uuid4 and the two utcnow values. -/
structure EnqueueOutcome where
  uuid : String
  ts : String
  queuedTs : String

/-- One unit of work handed to the worker pool. -/
structure SubmittedJob where
  job_id : String
  results : Json
  output_path : String
  extra_sqid : Option Int
  extra_llm : Option Json

/-- max_workers of the module-level ThreadPoolExecutor (pdf_worker.py
line 21). -/
def pdfMaxWorkers : Nat := 2

/-- enqueue_pdf_job (pdf_worker.py lines 128 to 163): fresh job id, default
output path from the title prefix and a timestamp under static/, pending
metadata written to the in-memory index and the durable store, then the
work appended to the pool queue; nothing of the job itself runs here.
Returns (the returned meta, index, store, pool queue). -/
def enqueue_pdf_job (o : EnqueueOutcome) (jobs files : JobsMap) (queue : List SubmittedJob)
    (results : Json) (output_path : Option String) (search_query_id : Option Int)
    (titlePref : String) : JobMeta × JobsMap × JobsMap × List SubmittedJob :=
  let path :=
    match output_path with
    | some p => p
    | none => "static/" ++ titlePref ++ "_" ++ o.ts ++ ".pdf"
  let llm : Option Json :=
    match results with
    | .obj kvs =>
      match dictLookup kvs "llm_model" with
      | some .null => none
      | v => v
    | _ => none
  let meta : JobMeta :=
    { job_id := some o.uuid
      status := some "pending"
      output_path := some (.str path)
      queued_at := some o.queuedTs
      started_at := none
      completed_at := none
      search_query_id := search_query_id
      llm_model := llm
      error := none }
  (meta, jset jobs o.uuid meta, jset files o.uuid meta,
   queue ++ [⟨o.uuid, results, path, search_query_id, llm⟩])

/-- What get_job_meta returns: a metadata dict or the sentinel dict whose
only key is error = not_found. -/
inductive JobLookup where
  | meta (m : JobMeta)
  | notFoundSentinel

/-- get_job_meta (pdf_worker.py lines 166 to 173): the in-memory index
first, then the durable per-job file, else the not_found sentinel. -/
def get_job_meta (jobs files : JobsMap) (job_id : String) : JobLookup :=
  match jget jobs job_id with
  | some m => .meta m
  | none =>
    match jget files job_id with
    | some m => .meta m
    | none => .notFoundSentinel

theorem pdfMetaFinal_terminal (o : PdfRunOutcome) (m1 : JobMeta) :
    ((pdfMetaFinal o m1).status = some "completed" ∨
      (pdfMetaFinal o m1).status = some "failed") ∧
    (pdfMetaFinal o m1).completed_at = some o.completedTs ∧
    ((pdfMetaFinal o m1).status = some "completed" →
      (pdfMetaFinal o m1).output_path.isSome = true) ∧
    ((pdfMetaFinal o m1).status = some "failed" →
      (pdfMetaFinal o m1).error.isSome = true) ∧
    (∀ e, o.toolResp = .error e →
      (pdfMetaFinal o m1).status = some "failed" ∧
      (pdfMetaFinal o m1).error = some (.str e)) := by
  cases htool : o.toolResp with
  | error e =>
    refine ⟨Or.inr ?_, ?_, ?_, ?_, ?_⟩ <;> simp [pdfMetaFinal, htool]
  | ok resp =>
    cases hpg : pyDictGet (pdfParsed resp) "path" .null with
    | none =>
      refine ⟨Or.inr ?_, ?_, ?_, ?_, ?_⟩ <;> simp [pdfMetaFinal, htool, hpg]
    | some pathVal =>
      by_cases htru : jsonTruthy pathVal = true
      · refine ⟨Or.inl ?_, ?_, ?_, ?_, ?_⟩ <;> simp [pdfMetaFinal, htool, hpg, htru]
      · rw [Bool.not_eq_true] at htru
        refine ⟨Or.inr ?_, ?_, ?_, ?_, ?_⟩ <;> simp [pdfMetaFinal, htool, hpg, htru]

/-- C5 (confirmed): every worker execution leaves the job in exactly one
terminal status — completed with an output path and completed_at, or
failed with an error and completed_at — and when the rendering
collaborator raises, the job is failed carrying that error; run_pdf_job
returns normally in every case (it is a total function of its oracle), so
failures reach the submitter only through the stored metadata read back by
get_job_meta. -/
theorem run_pdf_job_terminal (o : PdfRunOutcome) (jobs files : JobsMap) (job_id : String)
    (results : Json) (output_path : String) (extra_sqid : Option Int)
    (extra_llm : Option Json) :
    ∀ m, jget (run_pdf_job o jobs files job_id results output_path extra_sqid
        extra_llm).1 job_id = some m →
      (m.status = some "completed" ∨ m.status = some "failed") ∧
      m.completed_at = some o.completedTs ∧
      (m.status = some "completed" → m.output_path.isSome = true) ∧
      (m.status = some "failed" → m.error.isSome = true) ∧
      (∀ e, o.toolResp = .error e → m.status = some "failed" ∧ m.error = some (.str e)) := by
  intro m hm
  have hunf : (run_pdf_job o jobs files job_id results output_path extra_sqid
      extra_llm).1 =
      jset (jset jobs job_id (pdfMeta1 o jobs job_id)) job_id
        { pdfMetaFinal o (pdfMeta1 o jobs job_id) with
          search_query_id := extra_sqid
          llm_model := extra_llm } := rfl
  rw [hunf, jget_jset] at hm
  have hmeq := Option.some.inj hm
  subst hmeq
  have h := pdfMetaFinal_terminal o (pdfMeta1 o jobs job_id)
  exact ⟨h.1, h.2.1, h.2.2.1, h.2.2.2.1, h.2.2.2.2⟩

/-- Witness for run_pdf_job_terminal: the rendering tool raises boom; the
stored job metadata is terminal (completed or failed). -/
theorem run_pdf_job_terminal_witness :
    ((⟨none, some "failed", none, none, some "t1", some "t2", none, none,
        some (Json.str "boom")⟩ : JobMeta).status = some "completed" ∨
     (⟨none, some "failed", none, none, some "t1", some "t2", none, none,
        some (Json.str "boom")⟩ : JobMeta).status = some "failed") :=
  (run_pdf_job_terminal ⟨.error "boom", "t1", "t2"⟩ [] [] "j1" Json.null "out.pdf"
    none none
    ⟨none, some "failed", none, none, some "t1", some "t2", none, none,
      some (Json.str "boom")⟩ rfl).1

/-- C7 (confirmed): enqueue_pdf_job returns job metadata with status
pending and the freshly generated job id, and an output path — the
caller-supplied path when given, else the default built from the title
prefix and a timestamp under static/ — with the metadata persisted to the
durable store and indexed in memory (exactly once for a fresh uuid), the
work appended to the pool queue of the fixed 2-worker executor, and the
render job itself not executed by the call. -/
theorem enqueue_pdf_job_pending (o : EnqueueOutcome) (jobs files : JobsMap)
    (queue : List SubmittedJob) (results : Json) (output_path : Option String)
    (sqid : Option Int) (titlePref : String)
    (hfresh : jget jobs o.uuid = none) :
    (enqueue_pdf_job o jobs files queue results output_path sqid titlePref).1.status =
      some "pending" ∧
    (enqueue_pdf_job o jobs files queue results output_path sqid titlePref).1.job_id =
      some o.uuid ∧
    (∀ p, output_path = some p →
      (enqueue_pdf_job o jobs files queue results output_path sqid
        titlePref).1.output_path = some (.str p)) ∧
    (output_path = none →
      (enqueue_pdf_job o jobs files queue results output_path sqid
        titlePref).1.output_path =
        some (.str ("static/" ++ titlePref ++ "_" ++ o.ts ++ ".pdf"))) ∧
    jget (enqueue_pdf_job o jobs files queue results output_path sqid
        titlePref).2.2.1 o.uuid =
      some (enqueue_pdf_job o jobs files queue results output_path sqid titlePref).1 ∧
    jget (enqueue_pdf_job o jobs files queue results output_path sqid
        titlePref).2.1 o.uuid =
      some (enqueue_pdf_job o jobs files queue results output_path sqid titlePref).1 ∧
    (((enqueue_pdf_job o jobs files queue results output_path sqid titlePref).2.1).filter
      (fun p => p.1 = o.uuid)).length = 1 ∧
    ((enqueue_pdf_job o jobs files queue results output_path sqid titlePref).2.2.2).map
      (fun j => j.job_id) = (queue.map (fun j => j.job_id)) ++ [o.uuid] ∧
    pdfMaxWorkers = 2 := by
  have hfind : jobs.find? (fun p => p.1 = o.uuid) = none := by
    unfold jget at hfresh
    exact Option.map_eq_none'.mp hfresh
  have hfilter : jobs.filter (fun p => p.1 = o.uuid) = [] := by
    rw [List.filter_eq_nil_iff]
    intro a ha
    have := List.find?_eq_none.mp hfind a ha
    simpa using this
  refine ⟨rfl, rfl, ?_, ?_, ?_, ?_, ?_, ?_, rfl⟩
  · intro p hp
    simp [enqueue_pdf_job, hp]
  · intro hp
    simp [enqueue_pdf_job, hp]
  · exact jget_jset files o.uuid _
  · exact jget_jset jobs o.uuid _
  · show ((jset jobs o.uuid _).filter (fun p => p.1 = o.uuid)).length = 1
    rw [jset, List.filter_cons]
    simp [hfilter]
  · simp [enqueue_pdf_job]

/-- Witness for enqueue_pdf_job_pending: a fresh uuid against empty stores
returns pending metadata. -/
theorem enqueue_pdf_job_pending_witness :
    (enqueue_pdf_job ⟨"u1", "20240101", "q1"⟩ [] [] [] Json.null none none
      "relatorio_buscapi").1.status = some "pending" :=
  (enqueue_pdf_job_pending ⟨"u1", "20240101", "q1"⟩ [] [] [] Json.null none none
    "relatorio_buscapi" rfl).1

/-- C8 (confirmed): get_job_meta returns the in-memory record when the
index holds the id, falls back to the durable per-job file record
otherwise (lookups across process restarts), and returns the not_found
sentinel instead of raising when neither holds the id. -/
theorem get_job_meta_lookup (jobs files : JobsMap) (job_id : String) :
    (∀ m, jget jobs job_id = some m → get_job_meta jobs files job_id = .meta m) ∧
    (jget jobs job_id = none →
      ∀ m, jget files job_id = some m → get_job_meta jobs files job_id = .meta m) ∧
    (jget jobs job_id = none → jget files job_id = none →
      get_job_meta jobs files job_id = .notFoundSentinel) := by
  refine ⟨?_, ?_, ?_⟩
  · intro m hm
    simp [get_job_meta, hm]
  · intro h1 m hm
    simp [get_job_meta, h1, hm]
  · intro h1 h2
    simp [get_job_meta, h1, h2]

/-! ### flows/ip_flow.py — PropriedadeIntelectualFlow -/

/-- The pdf_job reference attached to the final report (ip_flow.py lines
227 to 231). -/
structure PdfJobRef where
  job_id : Option String
  status : Option String
  output_path : Option Json

/-- The final report dict assembled by _generate_final_report (ip_flow.py
lines 199 to 210). -/
structure Report where
  success : Bool
  flow_id : Option Int
  search_criteria : String
  data_collected : Nat
  classified_data : Json
  analysis_results : Json
  visualizations : Json
  llm_model : Option String
  insights : Json
  pdf_job : Option PdfJobRef

/-- PropriedadeIntelectualState (ip_flow.py lines 19 to 32); the payload
fields hold the JSON strings the tools return; final_report none models
the initial empty dict. -/
structure FlowState where
  search_query_id : Option Int
  search_criteria : String
  raw_data_json : Option String
  classified_data_json : Option String
  analysis_results_json : Option String
  visualizations_json : Option String
  final_report : Option Report
  error_message : Option String

/-- Context threaded through a run: the pydantic state, the search_log
rows written so far, and the string the previous step returned. -/
structure RunCtx where
  st : FlowState
  logs : List (Option Int × String)
  out : String

/-- The oracle of one run: per stage the attempt-indexed behaviour of the
tool that execute_task chooses (the stage input is closed over inside the
oracle), whether the in-try audit-log write after a successful stage
raises (some message) or succeeds (none), the enqueue_pdf_job outcome, and
the llm model attribute read during report generation.  Log writes inside
except handlers and the guarded status update are modelled as
succeeding. -/
structure RunOutcomes where
  collectAttempts : Nat → Except String PyValue
  collectLogErr : Option String
  classifyAttempts : Nat → Except String PyValue
  classifyLogErr : Option String
  analysisAttempts : Nat → Except String PyValue
  analysisLogErr : Option String
  vizAttempts : Nat → Except String PyValue
  enqueueResult : Except String JobMeta
  llmModel : Option String

def optIntStr : Option Int → String
  | none => "None"
  | some n => toString n

/-- _handle_error (ip_flow.py lines 46 to 54): format the message (the
quotes of the source f-string around the step name are omitted), store it
in error_message, log it when a search id is truthy, and return it as the
step output. -/
def handleError (step msg : String) (ctx : RunCtx) : RunCtx :=
  let m := "Erro no passo " ++ step ++ ": " ++ msg
  { st := { ctx.st with error_message := some m }
    logs := ctx.logs ++
      (if optIntTruthy ctx.st.search_query_id then [(ctx.st.search_query_id, m)] else [])
    out := m }

/-- iniciar_pesquisa (ip_flow.py lines 56 to 65): validate the initial
state; the start log write is unguarded in the source and modelled as
succeeding. -/
def iniciar_pesquisa (ctx : RunCtx) : RunCtx :=
  if ctx.st.search_criteria = "" ∨ ctx.st.search_query_id = none then
    handleError "iniciar_pesquisa"
      "Critério de busca ou ID da busca não foram definidos no estado inicial." ctx
  else
    { st := ctx.st
      logs := ctx.logs ++ [(ctx.st.search_query_id,
        "Fluxo iniciado para a busca ID " ++ optIntStr ctx.st.search_query_id ++
          " com critério: " ++ ctx.st.search_criteria)]
      out := "Início da coleta de dados." }

/-- coletar_dados (ip_flow.py lines 68 to 96): skip when error_message is
truthy; otherwise execute the collection task with retries 2, store the
output, count the items for the log (never raising), write the count log
(its failure is caught by the stage handler), and pass a fixed message. -/
def coletar_dados (o : RunOutcomes) (ctx : RunCtx) : RunCtx :=
  if optStrTruthy ctx.st.error_message = true then ctx
  else
    match execTaskResult o.collectAttempts 2 with
    | .error msg =>
      handleError "coletar_dados" ("Falha ao executar task de coleta: " ++ msg) ctx
    | .ok outStr =>
      let st1 := { ctx.st with raw_data_json := some outStr }
      let num :=
        match jsonParse outStr with
        | some (.arr xs) => xs.length
        | _ => 0
      match o.collectLogErr with
      | some e => handleError "coletar_dados" e { ctx with st := st1 }
      | none =>
        { st := st1
          logs := ctx.logs ++ [(st1.search_query_id,
            "Coleta concluída. " ++ toString num ++
              " resultados brutos obtidos e persistidos.")]
          out := "Coleta de dados finalizada." }

/-- classificar_dados (ip_flow.py lines 98 to 127): skip when the raw
payload is falsy; a failing classification (or a failing count-log write)
is logged and reported in the returned string, but error_message is left
untouched — this stage has no _handle_error call. -/
def classificar_dados (o : RunOutcomes) (ctx : RunCtx) : RunCtx :=
  if optStrTruthy ctx.st.raw_data_json = false then ctx
  else
    match execTaskResult o.classifyAttempts 2 with
    | .error msg =>
      { st := ctx.st
        logs := ctx.logs ++
          (if optIntTruthy ctx.st.search_query_id then
            [(ctx.st.search_query_id, "Erro na classificação: " ++ msg),
             (ctx.st.search_query_id, "Erro na classificação: " ++ msg)]
          else [])
        out := "Erro na classificação: " ++ msg }
    | .ok outStr =>
      let st1 := { ctx.st with classified_data_json := some outStr }
      let cnt :=
        match jsonParse outStr with
        | some j => (pyLen j).getD 0
        | none => 0
      if optIntTruthy st1.search_query_id then
        match o.classifyLogErr with
        | some e =>
          { st := st1
            logs := ctx.logs ++ [(st1.search_query_id, "Erro na classificação: " ++ e)]
            out := "Erro na classificação: " ++ e }
        | none =>
          { st := st1
            logs := ctx.logs ++ [(st1.search_query_id, toString cnt ++
              " resultados classificados (persistência feita pela ferramenta).")]
            out := "Classificação concluída: " ++ toString cnt ++ " registros válidos" }
      else
        { st := st1
          logs := ctx.logs
          out := "Classificação concluída: " ++ toString cnt ++ " registros válidos" }

/-- analisar_dados (ip_flow.py lines 129 to 156): skip when the classified
payload is falsy; a failing analysis (or the unguarded success-log write
failing) goes through _handle_error, setting error_message. -/
def analisar_dados (o : RunOutcomes) (ctx : RunCtx) : RunCtx :=
  if optStrTruthy ctx.st.classified_data_json = false then ctx
  else
    match execTaskResult o.analysisAttempts 2 with
    | .error msg =>
      handleError "analisar_dados" ("Falha ao executar análise de dados: " ++ msg) ctx
    | .ok outStr =>
      let st1 := { ctx.st with analysis_results_json := some outStr }
      match o.analysisLogErr with
      | some e => handleError "analisar_dados" e { ctx with st := st1 }
      | none =>
        { st := st1
          logs := ctx.logs ++ [(st1.search_query_id, "Analise de dados conlcuida com Sucesso")]
          out := "Análise de dados finalizada." }

/-- gerar_visualizacoes (ip_flow.py lines 158 to 183): skip when the
analysis payload is falsy; retries 1; a failure is logged twice (inner and
outer handler) and then goes through _handle_error. -/
def gerar_visualizacoes (o : RunOutcomes) (ctx : RunCtx) : RunCtx :=
  if optStrTruthy ctx.st.analysis_results_json = false then ctx
  else
    match execTaskResult o.vizAttempts 1 with
    | .error msg =>
      handleError "gerar_visualizacoes" msg
        { ctx with logs := ctx.logs ++
            (if optIntTruthy ctx.st.search_query_id then
              [(ctx.st.search_query_id, "Erro na execução da visualização: " ++ msg),
               (ctx.st.search_query_id, "Erro na geração de visualizações: " ++ msg)]
            else []) }
    | .ok outStr =>
      { st := { ctx.st with visualizations_json := some outStr }
        logs := ctx.logs
        out := "Visualizações geradas" }

/-- The _safe_json_load helper of _generate_final_report (ip_flow.py lines
188 to 192): a falsy or undecodable payload gives the default. -/
def safeJsonLoad (o : Option String) (dflt : Json) : Json :=
  match o with
  | none => dflt
  | some s => if s = "" then dflt else (jsonParse s).getD dflt

/-- Message of the TypeError raised by len() on an unsized value
(punctuation simplified). -/
def pyLenErrMsg (j : Json) : String := "object of type " ++ pyTypeName j ++ " has no len()"

/-- _generate_final_report (ip_flow.py lines 185 to 252): decode the four
payloads with defaults; len of the decoded raw payload and .get on the
decoded analysis payload can raise, in which case the outer except logs
and routes to _handle_error and the report stays as it was.  On success
the report is stored, the query status update and its log run (modelled
as succeeding), then the PDF job is enqueued and its reference attached;
an enqueue failure is only logged.  previous_output is passed through. -/
def generate_final_report (o : RunOutcomes) (ctx : RunCtx) : RunCtx :=
  let classified := safeJsonLoad ctx.st.classified_data_json (.arr [])
  let analysis := safeJsonLoad ctx.st.analysis_results_json (.obj [])
  let viz := safeJsonLoad ctx.st.visualizations_json (.obj [])
  let raw := safeJsonLoad ctx.st.raw_data_json (.arr [])
  match pyLen raw with
  | none =>
    handleError "generate_final_report" (pyLenErrMsg raw)
      { ctx with logs := ctx.logs ++
          (if optIntTruthy ctx.st.search_query_id then
            [(ctx.st.search_query_id, "Erro ao gerar relatório final: " ++ pyLenErrMsg raw)]
          else []) }
  | some n =>
    match pyDictGet analysis "insights" (.str "Nenhum insight gerado.") with
    | none =>
      handleError "generate_final_report" (pyGetAttrErr analysis)
        { ctx with logs := ctx.logs ++
            (if optIntTruthy ctx.st.search_query_id then
              [(ctx.st.search_query_id,
                "Erro ao gerar relatório final: " ++ pyGetAttrErr analysis)]
            else []) }
    | some ins =>
      let base : Report :=
        { success := true
          flow_id := ctx.st.search_query_id
          search_criteria := ctx.st.search_criteria
          data_collected := n
          classified_data := classified
          analysis_results := analysis
          visualizations := viz
          llm_model := o.llmModel
          insights := ins
          pdf_job := none }
      let doneLogs := ctx.logs ++
        (if optIntTruthy ctx.st.search_query_id then
          [(ctx.st.search_query_id, "Fluxo concluído e relatório final gerado.")]
        else [])
      match o.enqueueResult with
      | .ok m =>
        let rep := { base with pdf_job := some (⟨m.job_id, m.status, m.output_path⟩ : PdfJobRef) }
        { st := { ctx.st with final_report := some rep }
          logs := doneLogs ++
            (if optIntTruthy ctx.st.search_query_id then
              [(ctx.st.search_query_id,
                "PDF generation enqueued: job_id=" ++ (m.job_id.getD "None"))]
            else [])
          out := ctx.out }
      | .error e =>
        { st := { ctx.st with final_report := some base }
          logs := doneLogs ++
            (if optIntTruthy ctx.st.search_query_id then
              [(ctx.st.search_query_id, "Falha ao enfileirar PDF: " ++ e)]
            else [])
          out := ctx.out }

/-- The successive stage results of one run, starting from the initial
state the caller passed to kickoff. -/
def stage1 (s0 : FlowState) : RunCtx := iniciar_pesquisa ⟨s0, [], ""⟩

def stage2 (o : RunOutcomes) (s0 : FlowState) : RunCtx := coletar_dados o (stage1 s0)

def stage3 (o : RunOutcomes) (s0 : FlowState) : RunCtx := classificar_dados o (stage2 o s0)

def stage4 (o : RunOutcomes) (s0 : FlowState) : RunCtx := analisar_dados o (stage3 o s0)

def stage5 (o : RunOutcomes) (s0 : FlowState) : RunCtx := gerar_visualizacoes o (stage4 o s0)

/-- kickoff (ip_flow.py lines 254 to 269): run the five listener steps in
order, generate the final report, and return it. -/
def runFlow (o : RunOutcomes) (s0 : FlowState) : RunCtx :=
  generate_final_report o (stage5 o s0)

def kickoff (o : RunOutcomes) (s0 : FlowState) : Option Report :=
  (runFlow o s0).st.final_report

/-- The three fields of the error short-circuit claim. -/
def dataFields (c : RunCtx) : Option String × Option String × Option String :=
  (c.st.classified_data_json, c.st.analysis_results_json, c.st.visualizations_json)

theorem append_ne_empty_left (s t : String) (h : ¬ s = "") : ¬ (s ++ t = "") := by
  intro he
  apply h
  have hl := congrArg String.length he
  rw [String.length_append] at hl
  have h0 : ("" : String).length = 0 := rfl
  rw [h0] at hl
  obtain ⟨data⟩ := s
  cases data with
  | nil => rfl
  | cons a as =>
    have hlen : (String.mk (a :: as)).length = as.length + 1 := rfl
    omega

theorem optStrTruthy_some (s : String) (h : ¬ s = "") : optStrTruthy (some s) = true := by
  simp [optStrTruthy, h]

theorem handleError_truthy (step msg : String) (ctx : RunCtx) :
    optStrTruthy (handleError step msg ctx).st.error_message = true := by
  show optStrTruthy (some ("Erro no passo " ++ step ++ ": " ++ msg)) = true
  exact optStrTruthy_some _
    (append_ne_empty_left _ _ (append_ne_empty_left _ _
      (append_ne_empty_left _ _ (by decide))))

theorem iniciar_frame (ctx : RunCtx) :
    (iniciar_pesquisa ctx).st.search_criteria = ctx.st.search_criteria ∧
    (iniciar_pesquisa ctx).st.search_query_id = ctx.st.search_query_id ∧
    (iniciar_pesquisa ctx).st.raw_data_json = ctx.st.raw_data_json ∧
    (iniciar_pesquisa ctx).st.classified_data_json = ctx.st.classified_data_json ∧
    (iniciar_pesquisa ctx).st.analysis_results_json = ctx.st.analysis_results_json ∧
    (iniciar_pesquisa ctx).st.visualizations_json = ctx.st.visualizations_json := by
  unfold iniciar_pesquisa handleError
  repeat' (first | split | dsimp only)
  all_goals exact ⟨rfl, rfl, rfl, rfl, rfl, rfl⟩

theorem coletar_frame (o : RunOutcomes) (ctx : RunCtx) :
    (coletar_dados o ctx).st.search_criteria = ctx.st.search_criteria ∧
    (coletar_dados o ctx).st.search_query_id = ctx.st.search_query_id ∧
    (coletar_dados o ctx).st.classified_data_json = ctx.st.classified_data_json ∧
    (coletar_dados o ctx).st.analysis_results_json = ctx.st.analysis_results_json ∧
    (coletar_dados o ctx).st.visualizations_json = ctx.st.visualizations_json := by
  unfold coletar_dados handleError
  repeat' (first | split | dsimp only)
  all_goals exact ⟨rfl, rfl, rfl, rfl, rfl⟩

theorem classificar_frame (o : RunOutcomes) (ctx : RunCtx) :
    (classificar_dados o ctx).st.search_criteria = ctx.st.search_criteria ∧
    (classificar_dados o ctx).st.search_query_id = ctx.st.search_query_id ∧
    (classificar_dados o ctx).st.raw_data_json = ctx.st.raw_data_json ∧
    (classificar_dados o ctx).st.analysis_results_json = ctx.st.analysis_results_json ∧
    (classificar_dados o ctx).st.visualizations_json = ctx.st.visualizations_json ∧
    (classificar_dados o ctx).st.error_message = ctx.st.error_message := by
  unfold classificar_dados
  repeat' (first | split | dsimp only)
  all_goals exact ⟨rfl, rfl, rfl, rfl, rfl, rfl⟩

theorem analisar_frame (o : RunOutcomes) (ctx : RunCtx) :
    (analisar_dados o ctx).st.search_criteria = ctx.st.search_criteria ∧
    (analisar_dados o ctx).st.search_query_id = ctx.st.search_query_id ∧
    (analisar_dados o ctx).st.raw_data_json = ctx.st.raw_data_json ∧
    (analisar_dados o ctx).st.classified_data_json = ctx.st.classified_data_json ∧
    (analisar_dados o ctx).st.visualizations_json = ctx.st.visualizations_json := by
  unfold analisar_dados handleError
  repeat' (first | split | dsimp only)
  all_goals exact ⟨rfl, rfl, rfl, rfl, rfl⟩

theorem gerar_frame (o : RunOutcomes) (ctx : RunCtx) :
    (gerar_visualizacoes o ctx).st.search_criteria = ctx.st.search_criteria ∧
    (gerar_visualizacoes o ctx).st.search_query_id = ctx.st.search_query_id ∧
    (gerar_visualizacoes o ctx).st.raw_data_json = ctx.st.raw_data_json ∧
    (gerar_visualizacoes o ctx).st.classified_data_json = ctx.st.classified_data_json ∧
    (gerar_visualizacoes o ctx).st.analysis_results_json = ctx.st.analysis_results_json := by
  unfold gerar_visualizacoes handleError
  repeat' (first | split | dsimp only)
  all_goals exact ⟨rfl, rfl, rfl, rfl, rfl⟩

theorem coletar_skip (o : RunOutcomes) (ctx : RunCtx)
    (h : optStrTruthy ctx.st.error_message = true) : coletar_dados o ctx = ctx := by
  unfold coletar_dados
  rw [if_pos h]

theorem classificar_skip (o : RunOutcomes) (ctx : RunCtx)
    (h : optStrTruthy ctx.st.raw_data_json = false) : classificar_dados o ctx = ctx := by
  unfold classificar_dados
  rw [if_pos h]

theorem analisar_skip (o : RunOutcomes) (ctx : RunCtx)
    (h : optStrTruthy ctx.st.classified_data_json = false) : analisar_dados o ctx = ctx := by
  unfold analisar_dados
  rw [if_pos h]

theorem gerar_skip (o : RunOutcomes) (ctx : RunCtx)
    (h : optStrTruthy ctx.st.analysis_results_json = false) :
    gerar_visualizacoes o ctx = ctx := by
  unfold gerar_visualizacoes
  rw [if_pos h]

theorem coletar_err_eq (o : RunOutcomes) (ctx : RunCtx) (msg : String)
    (hg : optStrTruthy ctx.st.error_message = false)
    (he : execTaskResult o.collectAttempts 2 = .error msg) :
    coletar_dados o ctx =
      handleError "coletar_dados" ("Falha ao executar task de coleta: " ++ msg) ctx := by
  simp [coletar_dados, hg, he]

theorem coletar_ok_st (o : RunOutcomes) (ctx : RunCtx) (outStr : String)
    (hg : optStrTruthy ctx.st.error_message = false)
    (he : execTaskResult o.collectAttempts 2 = .ok outStr)
    (hl : o.collectLogErr = none) :
    (coletar_dados o ctx).st = { ctx.st with raw_data_json := some outStr } := by
  simp [coletar_dados, hg, he, hl]

theorem classificar_err_st (o : RunOutcomes) (ctx : RunCtx) (msg : String)
    (hg : optStrTruthy ctx.st.raw_data_json = true)
    (he : execTaskResult o.classifyAttempts 2 = .error msg) :
    (classificar_dados o ctx).st = ctx.st := by
  simp [classificar_dados, hg, he]

theorem classificar_ok_st (o : RunOutcomes) (ctx : RunCtx) (outStr : String)
    (hg : optStrTruthy ctx.st.raw_data_json = true)
    (he : execTaskResult o.classifyAttempts 2 = .ok outStr) :
    (classificar_dados o ctx).st = { ctx.st with classified_data_json := some outStr } := by
  simp only [classificar_dados]
  rw [if_neg (by simp [hg])]
  rw [he]
  dsimp only
  repeat' (first | split | dsimp only)

theorem analisar_err_eq (o : RunOutcomes) (ctx : RunCtx) (msg : String)
    (hg : optStrTruthy ctx.st.classified_data_json = true)
    (he : execTaskResult o.analysisAttempts 2 = .error msg) :
    analisar_dados o ctx =
      handleError "analisar_dados" ("Falha ao executar análise de dados: " ++ msg) ctx := by
  simp [analisar_dados, hg, he]

theorem analisar_ok_st (o : RunOutcomes) (ctx : RunCtx) (outStr : String)
    (hg : optStrTruthy ctx.st.classified_data_json = true)
    (he : execTaskResult o.analysisAttempts 2 = .ok outStr)
    (hl : o.analysisLogErr = none) :
    (analisar_dados o ctx).st = { ctx.st with analysis_results_json := some outStr } := by
  simp [analisar_dados, hg, he, hl]

/-- C2 (corrected): only the collection stage checks error_message; the
later stages gate on the presence of their input payload instead.  For a
fresh run state, and provided the in-try audit-log writes succeed, the
claimed invariant does hold: once error_message is set at some stage, every
later stage leaves classified_data_json, analysis_results_json and
visualizations_json exactly as they were when the error was recorded.
(When an audit-log write fails after a stage has stored its output, the
next stage still runs: see the counterexample.) -/
theorem error_shortcircuit (o : RunOutcomes) (s0 : FlowState)
    (hraw : s0.raw_data_json = none) (hcls : s0.classified_data_json = none)
    (han : s0.analysis_results_json = none) (hviz : s0.visualizations_json = none)
    (herr : s0.error_message = none)
    (hlog1 : o.collectLogErr = none) (hlog3 : o.analysisLogErr = none) :
    (optStrTruthy (stage1 s0).st.error_message = true →
      dataFields (stage2 o s0) = dataFields (stage1 s0) ∧
      dataFields (stage3 o s0) = dataFields (stage1 s0) ∧
      dataFields (stage4 o s0) = dataFields (stage1 s0) ∧
      dataFields (stage5 o s0) = dataFields (stage1 s0)) ∧
    (optStrTruthy (stage2 o s0).st.error_message = true →
      dataFields (stage3 o s0) = dataFields (stage2 o s0) ∧
      dataFields (stage4 o s0) = dataFields (stage2 o s0) ∧
      dataFields (stage5 o s0) = dataFields (stage2 o s0)) ∧
    (optStrTruthy (stage3 o s0).st.error_message = true →
      dataFields (stage4 o s0) = dataFields (stage3 o s0) ∧
      dataFields (stage5 o s0) = dataFields (stage3 o s0)) ∧
    (optStrTruthy (stage4 o s0).st.error_message = true →
      dataFields (stage5 o s0) = dataFields (stage4 o s0)) := by
  by_cases hpre : (s0.search_criteria = "" ∨ s0.search_query_id = none)
  · have h1 : stage1 s0 = handleError "iniciar_pesquisa"
        "Critério de busca ou ID da busca não foram definidos no estado inicial."
        ⟨s0, [], ""⟩ := by
      simp [stage1, iniciar_pesquisa, hpre]
    have h1raw : (stage1 s0).st.raw_data_json = none := by
      rw [h1]
      show s0.raw_data_json = none
      exact hraw
    have h1cls : (stage1 s0).st.classified_data_json = none := by
      rw [h1]
      show s0.classified_data_json = none
      exact hcls
    have h1an : (stage1 s0).st.analysis_results_json = none := by
      rw [h1]
      show s0.analysis_results_json = none
      exact han
    have h1e : optStrTruthy (stage1 s0).st.error_message = true := by
      rw [h1]
      exact handleError_truthy _ _ _
    have h2 : stage2 o s0 = stage1 s0 := coletar_skip o _ h1e
    have h3 : stage3 o s0 = stage2 o s0 := by
      show classificar_dados o (stage2 o s0) = stage2 o s0
      exact classificar_skip o _ (by rw [h2, h1raw]; rfl)
    have h4 : stage4 o s0 = stage3 o s0 := by
      show analisar_dados o (stage3 o s0) = stage3 o s0
      exact analisar_skip o _ (by rw [h3, h2, h1cls]; rfl)
    have h5 : stage5 o s0 = stage4 o s0 := by
      show gerar_visualizacoes o (stage4 o s0) = stage4 o s0
      exact gerar_skip o _ (by rw [h4, h3, h2, h1an]; rfl)
    refine ⟨fun _ => ?_, fun _ => ?_, fun _ => ?_, fun _ => ?_⟩ <;>
      simp [h2, h3, h4, h5]
  · have h1st : (stage1 s0).st = s0 := by
      simp [stage1, iniciar_pesquisa, hpre]
    have h1e : optStrTruthy (stage1 s0).st.error_message = false := by
      rw [h1st, herr]
      rfl
    cases hce : execTaskResult o.collectAttempts 2 with
    | error msg =>
      have h2 : stage2 o s0 = handleError "coletar_dados"
          ("Falha ao executar task de coleta: " ++ msg) (stage1 s0) := by
        show coletar_dados o (stage1 s0) = _
        exact coletar_err_eq o _ msg h1e hce
      have h2raw : (stage2 o s0).st.raw_data_json = none := by
        rw [h2]
        show (stage1 s0).st.raw_data_json = none
        rw [h1st]
        exact hraw
      have h2cls : (stage2 o s0).st.classified_data_json = none := by
        rw [h2]
        show (stage1 s0).st.classified_data_json = none
        rw [h1st]
        exact hcls
      have h2an : (stage2 o s0).st.analysis_results_json = none := by
        rw [h2]
        show (stage1 s0).st.analysis_results_json = none
        rw [h1st]
        exact han
      have h3 : stage3 o s0 = stage2 o s0 := by
        show classificar_dados o (stage2 o s0) = stage2 o s0
        exact classificar_skip o _ (by rw [h2raw]; rfl)
      have h4 : stage4 o s0 = stage3 o s0 := by
        show analisar_dados o (stage3 o s0) = stage3 o s0
        exact analisar_skip o _ (by rw [h3, h2cls]; rfl)
      have h5 : stage5 o s0 = stage4 o s0 := by
        show gerar_visualizacoes o (stage4 o s0) = stage4 o s0
        exact gerar_skip o _ (by rw [h4, h3, h2an]; rfl)
      refine ⟨fun hc => absurd hc (by simp [h1e]), fun _ => ?_, fun _ => ?_, fun _ => ?_⟩ <;>
        simp [h3, h4, h5]
    | ok outStr =>
      have h2st : (stage2 o s0).st = { s0 with raw_data_json := some outStr } := by
        show (coletar_dados o (stage1 s0)).st = _
        rw [coletar_ok_st o _ outStr h1e hce hlog1, h1st]
      have h2e : optStrTruthy (stage2 o s0).st.error_message = false := by
        rw [h2st]
        show optStrTruthy s0.error_message = false
        rw [herr]
        rfl
      have h2cls : (stage2 o s0).st.classified_data_json = none := by
        rw [h2st]
        show s0.classified_data_json = none
        exact hcls
      have h2an : (stage2 o s0).st.analysis_results_json = none := by
        rw [h2st]
        show s0.analysis_results_json = none
        exact han
      by_cases hout : outStr = ""
      · have h3 : stage3 o s0 = stage2 o s0 := by
          show classificar_dados o (stage2 o s0) = stage2 o s0
          apply classificar_skip
          rw [h2st]
          show optStrTruthy (some outStr) = false
          rw [hout]
          rfl
        have h4 : stage4 o s0 = stage3 o s0 := by
          show analisar_dados o (stage3 o s0) = stage3 o s0
          exact analisar_skip o _ (by rw [h3, h2cls]; rfl)
        have h5 : stage5 o s0 = stage4 o s0 := by
          show gerar_visualizacoes o (stage4 o s0) = stage4 o s0
          exact gerar_skip o _ (by rw [h4, h3, h2an]; rfl)
        exact ⟨fun hc => absurd hc (by simp [h1e]),
               fun hc => absurd hc (by simp [h2e]),
               fun hc => absurd hc (by simp [h3, h2e]),
               fun hc => absurd hc (by simp [h4, h3, h2e])⟩
      · have hg3 : optStrTruthy (stage2 o s0).st.raw_data_json = true := by
          rw [h2st]
          show optStrTruthy (some outStr) = true
          exact optStrTruthy_some _ hout
        cases hcls2 : execTaskResult o.classifyAttempts 2 with
        | error msg2 =>
          have h3st : (stage3 o s0).st = (stage2 o s0).st := by
            show (classificar_dados o (stage2 o s0)).st = _
            exact classificar_err_st o _ msg2 hg3 hcls2
          have h3e : optStrTruthy (stage3 o s0).st.error_message = false := by
            rw [h3st]
            exact h2e
          have h4 : stage4 o s0 = stage3 o s0 := by
            show analisar_dados o (stage3 o s0) = stage3 o s0
            exact analisar_skip o _ (by rw [h3st, h2cls]; rfl)
          have h5 : stage5 o s0 = stage4 o s0 := by
            show gerar_visualizacoes o (stage4 o s0) = stage4 o s0
            exact gerar_skip o _ (by rw [h4, h3st, h2an]; rfl)
          exact ⟨fun hc => absurd hc (by simp [h1e]),
                 fun hc => absurd hc (by simp [h2e]),
                 fun hc => absurd hc (by simp [h3e]),
                 fun hc => absurd hc (by simp [h4, h3e])⟩
        | ok cs =>
          have h3st : (stage3 o s0).st =
              { (stage2 o s0).st with classified_data_json := some cs } := by
            show (classificar_dados o (stage2 o s0)).st = _
            exact classificar_ok_st o _ cs hg3 hcls2
          have h3e : optStrTruthy (stage3 o s0).st.error_message = false := by
            rw [h3st]
            show optStrTruthy (stage2 o s0).st.error_message = false
            exact h2e
          by_cases hcs : cs = ""
          · have h4 : stage4 o s0 = stage3 o s0 := by
              show analisar_dados o (stage3 o s0) = stage3 o s0
              apply analisar_skip
              rw [h3st]
              show optStrTruthy (some cs) = false
              rw [hcs]
              rfl
            have h5 : stage5 o s0 = stage4 o s0 := by
              show gerar_visualizacoes o (stage4 o s0) = stage4 o s0
              apply gerar_skip
              rw [h4, h3st]
              show optStrTruthy (stage2 o s0).st.analysis_results_json = false
              rw [h2an]
              rfl
            exact ⟨fun hc => absurd hc (by simp [h1e]),
                   fun hc => absurd hc (by simp [h2e]),
                   fun hc => absurd hc (by simp [h3e]),
                   fun hc => absurd hc (by simp [h4, h3e])⟩
          · have hg4 : optStrTruthy (stage3 o s0).st.classified_data_json = true := by
              rw [h3st]
              show optStrTruthy (some cs) = true
              exact optStrTruthy_some _ hcs
            cases hana : execTaskResult o.analysisAttempts 2 with
            | error m3 =>
              have h4eq : stage4 o s0 = handleError "analisar_dados"
                  ("Falha ao executar análise de dados: " ++ m3) (stage3 o s0) := by
                show analisar_dados o (stage3 o s0) = _
                exact analisar_err_eq o _ m3 hg4 hana
              have h4an : (stage4 o s0).st.analysis_results_json = none := by
                rw [h4eq]
                show (stage3 o s0).st.analysis_results_json = none
                rw [h3st]
                show (stage2 o s0).st.analysis_results_json = none
                exact h2an
              have h5 : stage5 o s0 = stage4 o s0 := by
                show gerar_visualizacoes o (stage4 o s0) = stage4 o s0
                exact gerar_skip o _ (by rw [h4an]; rfl)
              exact ⟨fun hc => absurd hc (by simp [h1e]),
                     fun hc => absurd hc (by simp [h2e]),
                     fun hc => absurd hc (by simp [h3e]),
                     fun _ => by rw [h5]⟩
            | ok as2 =>
              have h4st : (stage4 o s0).st =
                  { (stage3 o s0).st with analysis_results_json := some as2 } := by
                show (analisar_dados o (stage3 o s0)).st = _
                exact analisar_ok_st o _ as2 hg4 hana hlog3
              have h4e : optStrTruthy (stage4 o s0).st.error_message = false := by
                rw [h4st]
                show optStrTruthy (stage3 o s0).st.error_message = false
                exact h3e
              exact ⟨fun hc => absurd hc (by simp [h1e]),
                     fun hc => absurd hc (by simp [h2e]),
                     fun hc => absurd hc (by simp [h3e]),
                     fun hc => absurd hc (by simp [h4e])⟩

/-- Initial state missing the search criteria: the run fails at
iniciar_pesquisa (used to exercise error_shortcircuit). -/
def s0C2w : FlowState := ⟨some 1, "", none, none, none, none, none, none⟩

/-- Outcomes for the error_shortcircuit witness: every capability would
succeed, all log writes succeed. -/
def oC2w : RunOutcomes :=
  ⟨fun _ => .ok (.pstr "[1]"), none, fun _ => .ok (.pstr "[1]"), none,
   fun _ => .ok (.pstr "[1]"), none, fun _ => .ok (.pstr "[1]"), .error "x", none⟩

/-- Witness for error_shortcircuit: a run whose precondition fails records
the error at the first step and the data fields never change thereafter. -/
theorem error_shortcircuit_witness :
    dataFields (stage5 oC2w s0C2w) = dataFields (stage1 s0C2w) :=
  ((error_shortcircuit oC2w s0C2w rfl rfl rfl rfl rfl rfl rfl).1 (by decide)).2.2.2

/-- Fresh valid initial state for the error_shortcircuit counterexample. -/
def s0C2c : FlowState := ⟨some 1, "q", none, none, none, none, none, none⟩

/-- Outcomes for the counterexample: collection succeeds but its audit-log
write raises, so error_message is set while raw data is present; the
classification capability then succeeds. -/
def oC2c : RunOutcomes :=
  ⟨fun _ => .ok (.pstr "[1]"), some "db caiu", fun _ => .ok (.pstr "[2]"), none,
   fun _ => .ok (.pstr "[]"), none, fun _ => .ok (.pstr "[]"), .error "x", none⟩

/-- C2 counterexample: after collection stores its output and its log
write fails, error_message is set — yet the classification stage still
runs and mutates classified_data_json, contradicting the claim that once
error_message is non-empty no subsequent stage mutates these fields. -/
theorem error_shortcircuit_cex :
    optStrTruthy (stage2 oC2c s0C2c).st.error_message = true ∧
    ¬ ((stage3 oC2c s0C2c).st.classified_data_json =
        (stage2 oC2c s0C2c).st.classified_data_json) := by
  constructor
  · decide
  · decide

theorem stage5_criteria (o : RunOutcomes) (s0 : FlowState) :
    (stage5 o s0).st.search_criteria = s0.search_criteria := by
  have i1 := (iniciar_frame ⟨s0, [], ""⟩).1
  have i2 := (coletar_frame o (stage1 s0)).1
  have i3 := (classificar_frame o (stage2 o s0)).1
  have i4 := (analisar_frame o (stage3 o s0)).1
  have i5 := (gerar_frame o (stage4 o s0)).1
  exact i5.trans (i4.trans (i3.trans (i2.trans i1)))

/-- The report _generate_final_report assembles on its success path. -/
def generatedReport (o : RunOutcomes) (ctx : RunCtx) (n : Nat) (ins : Json)
    (pj : Option PdfJobRef) : Report :=
  { success := true
    flow_id := ctx.st.search_query_id
    search_criteria := ctx.st.search_criteria
    data_collected := n
    classified_data := safeJsonLoad ctx.st.classified_data_json (.arr [])
    analysis_results := safeJsonLoad ctx.st.analysis_results_json (.obj [])
    visualizations := safeJsonLoad ctx.st.visualizations_json (.obj [])
    llm_model := o.llmModel
    insights := ins
    pdf_job := pj }

/-- The flow state with the assembled report stored. -/
def withReport (st : FlowState) (r : Report) : FlowState := { st with final_report := some r }

theorem generate_ok_st (o : RunOutcomes) (ctx : RunCtx) (n : Nat) (ins : Json) (jm : JobMeta)
    (hn : pyLen (safeJsonLoad ctx.st.raw_data_json (.arr [])) = some n)
    (hi : pyDictGet (safeJsonLoad ctx.st.analysis_results_json (.obj []))
        "insights" (.str "Nenhum insight gerado.") = some ins)
    (he : o.enqueueResult = .ok jm) :
    (generate_final_report o ctx).st =
      withReport ctx.st (generatedReport o ctx n ins
        (some ⟨jm.job_id, jm.status, jm.output_path⟩)) := by
  simp [generate_final_report, generatedReport, withReport, hn, hi, he]

theorem generate_enqfail_st (o : RunOutcomes) (ctx : RunCtx) (n : Nat) (ins : Json)
    (e : String)
    (hn : pyLen (safeJsonLoad ctx.st.raw_data_json (.arr [])) = some n)
    (hi : pyDictGet (safeJsonLoad ctx.st.analysis_results_json (.obj []))
        "insights" (.str "Nenhum insight gerado.") = some ins)
    (he : o.enqueueResult = .error e) :
    (generate_final_report o ctx).st =
      withReport ctx.st (generatedReport o ctx n ins none) := by
  simp [generate_final_report, generatedReport, withReport, hn, hi, he]

/-- C1 (corrected): the run always returns without raising, and whenever
the decoded raw payload has a Python length (absent or undecodable
payloads default to the empty list) and the decoded analysis payload
supports .get (absent or undecodable payloads default to the empty dict),
the returned report carries search_criteria and the data_collected count —
0 when raw data is absent — with classified_data, analysis_results and
visualizations defaulting to empty list or dict on decode failure.  When
the decoded raw payload has no length or the decoded analysis payload is
not a dict, the exception is caught centrally and the returned report is
the still-empty one, without search_criteria: see the counterexample. -/
theorem report_always_generated (o : RunOutcomes) (s0 : FlowState)
    (hlen : (pyLen (safeJsonLoad (stage5 o s0).st.raw_data_json (.arr []))).isSome = true)
    (hins : (pyDictGet (safeJsonLoad (stage5 o s0).st.analysis_results_json (.obj []))
        "insights" (.str "Nenhum insight gerado.")).isSome = true) :
    ∃ r, kickoff o s0 = some r ∧
      r.search_criteria = s0.search_criteria ∧
      r.data_collected =
        (pyLen (safeJsonLoad (stage5 o s0).st.raw_data_json (.arr []))).getD 0 ∧
      ((stage5 o s0).st.raw_data_json = none → r.data_collected = 0) ∧
      r.classified_data = safeJsonLoad (stage5 o s0).st.classified_data_json (.arr []) ∧
      r.analysis_results = safeJsonLoad (stage5 o s0).st.analysis_results_json (.obj []) ∧
      r.visualizations = safeJsonLoad (stage5 o s0).st.visualizations_json (.obj []) := by
  obtain ⟨n, hn⟩ := Option.isSome_iff_exists.mp hlen
  obtain ⟨ins, hi⟩ := Option.isSome_iff_exists.mp hins
  have hzero : (stage5 o s0).st.raw_data_json = none → n = 0 := by
    intro h0
    rw [h0] at hn
    simp [safeJsonLoad, pyLen] at hn
    omega
  cases henq : o.enqueueResult with
  | ok jm =>
    refine ⟨generatedReport o (stage5 o s0) n ins
        (some ⟨jm.job_id, jm.status, jm.output_path⟩), ?_, ?_, ?_, ?_, rfl, rfl, rfl⟩
    · show (generate_final_report o (stage5 o s0)).st.final_report = some _
      rw [generate_ok_st o _ n ins jm hn hi henq]
      rfl
    · show (stage5 o s0).st.search_criteria = s0.search_criteria
      exact stage5_criteria o s0
    · show n = (pyLen (safeJsonLoad (stage5 o s0).st.raw_data_json (.arr []))).getD 0
      rw [hn]
      rfl
    · intro h0
      show n = 0
      exact hzero h0
  | error e =>
    refine ⟨generatedReport o (stage5 o s0) n ins none, ?_, ?_, ?_, ?_, rfl, rfl, rfl⟩
    · show (generate_final_report o (stage5 o s0)).st.final_report = some _
      rw [generate_enqfail_st o _ n ins e hn hi henq]
      rfl
    · show (stage5 o s0).st.search_criteria = s0.search_criteria
      exact stage5_criteria o s0
    · show n = (pyLen (safeJsonLoad (stage5 o s0).st.raw_data_json (.arr []))).getD 0
      rw [hn]
      rfl
    · intro h0
      show n = 0
      exact hzero h0

/-- Initial state with an empty criteria: total failure before collection
(used as witness input for report_always_generated). -/
def s0C1w : FlowState := ⟨some 1, "", none, none, none, none, none, none⟩

/-- Outcomes for the report_always_generated witness. -/
def oC1w : RunOutcomes :=
  ⟨fun _ => .ok (.pstr "[1]"), none, fun _ => .ok (.pstr "[1]"), none,
   fun _ => .ok (.pstr "[1]"), none, fun _ => .ok (.pstr "[1]"), .ok emptyMeta, none⟩

/-- Witness for report_always_generated: even for a run that fails at the
first step, the final report exists with data_collected 0. -/
theorem report_always_generated_witness :
    ∃ r, kickoff oC1w s0C1w = some r ∧ r.search_criteria = "" ∧ r.data_collected = 0 := by
  obtain ⟨r, hr1, hr2, hr3, hr4, _, _, _⟩ :=
    report_always_generated oC1w s0C1w (by decide) (by decide)
  exact ⟨r, hr1, by simpa using hr2, hr4 (by decide)⟩

/-- Fresh valid initial state for the report counterexample. -/
def s0C1c : FlowState := ⟨some 1, "q", none, none, none, none, none, none⟩

/-- Outcomes for the report counterexample: the collection capability
returns the decodable but unsized payload 7; classification fails, so the
run reaches reporting with raw_data_json = some 7-as-text. -/
def oC1c : RunOutcomes :=
  ⟨fun _ => .ok (.pstr "7"), none, fun _ => .error "falha", none,
   fun _ => .ok (.pstr "[]"), none, fun _ => .ok (.pstr "[]"), .ok emptyMeta, none⟩

/-- C1 counterexample: with a malformed (unsized) raw payload the report
generation catches a TypeError internally and the run returns the empty
report — no search_criteria, no data_collected — refuting the claim that
every run returns a report containing at least those fields. -/
theorem report_always_generated_cex :
    kickoff oC1c s0C1c = none ∧
    optStrTruthy (runFlow oC1c s0C1c).st.error_message = true := by
  constructor
  · rfl
  · decide

theorem classificar_err_logs (o : RunOutcomes) (ctx : RunCtx) (msg : String)
    (hg : optStrTruthy ctx.st.raw_data_json = true)
    (he : execTaskResult o.classifyAttempts 2 = .error msg)
    (hid : optIntTruthy ctx.st.search_query_id = true) :
    (classificar_dados o ctx).logs = ctx.logs ++
      [(ctx.st.search_query_id, "Erro na classificação: " ++ msg),
       (ctx.st.search_query_id, "Erro na classificação: " ++ msg)] := by
  simp [classificar_dados, hg, he, hid]

theorem generate_logs_mono (o : RunOutcomes) (ctx : RunCtx) :
    ∀ p, p ∈ ctx.logs → p ∈ (generate_final_report o ctx).logs := by
  unfold generate_final_report handleError
  repeat' (first | split | dsimp only)
  all_goals intro p hp
  all_goals simp [List.mem_append, hp]

/-- C4 (corrected): when the classification capability raises on every
retry, the error is written to the audit log, but — contrary to the claim
— PipelineState.error_message is left unset (classificar_dados has no
_handle_error call) and the assembled final report carries no error field
at all; the run does still proceed to Reporting, the final report still
contains data_collected from the successful collection stage, and a
render job reference is still attached. -/
theorem classification_failure_no_error (o : RunOutcomes) (s0 : FlowState) (qid : Int)
    (rawStr : String) (es : Nat → String) (jm : JobMeta)
    (hq : s0.search_query_id = some qid) (hqz : ¬ qid = 0)
    (hcrit : ¬ s0.search_criteria = "")
    (hraw0 : s0.raw_data_json = none) (hcls0 : s0.classified_data_json = none)
    (han0 : s0.analysis_results_json = none) (hviz0 : s0.visualizations_json = none)
    (herr0 : s0.error_message = none)
    (hcoll : execTaskResult o.collectAttempts 2 = .ok rawStr)
    (hrawne : ¬ rawStr = "")
    (hlog1 : o.collectLogErr = none)
    (hclf : ∀ k, o.classifyAttempts k = .error (es k))
    (hlen : (pyLen ((jsonParse rawStr).getD (.arr []))).isSome = true)
    (henq : o.enqueueResult = .ok jm) :
    (runFlow o s0).st.error_message = none ∧
    (∃ r, kickoff o s0 = some r ∧
      r.data_collected = (pyLen ((jsonParse rawStr).getD (.arr []))).getD 0 ∧
      r.pdf_job = some ⟨jm.job_id, jm.status, jm.output_path⟩) ∧
    (some qid, "Erro na classificação: " ++
        ("Falha ao executar a task após " ++ toString 2 ++ " tentativas: " ++ es 1))
      ∈ (runFlow o s0).logs := by
  have hclsr : execTaskResult o.classifyAttempts 2 =
      .error ("Falha ao executar a task após " ++ toString 2 ++ " tentativas: " ++ es 1) := by
    have hgo := execAttemptsGo_fail o.classifyAttempts es 2 0 none (by omega)
      (fun k hk => by simpa using hclf (0 + k))
    simp only [execTaskResult, runToolAttempts]
    rw [show (max 1 2 : Nat) = 2 from rfl, hgo]
  have hpre : ¬ (s0.search_criteria = "" ∨ s0.search_query_id = none) := by
    rintro (h | h)
    · exact hcrit h
    · rw [hq] at h
      exact Option.noConfusion h
  have h1st : (stage1 s0).st = s0 := by
    simp [stage1, iniciar_pesquisa, hpre]
  have h1e : optStrTruthy (stage1 s0).st.error_message = false := by
    rw [h1st, herr0]
    rfl
  have h2st : (stage2 o s0).st = { s0 with raw_data_json := some rawStr } := by
    show (coletar_dados o (stage1 s0)).st = _
    rw [coletar_ok_st o _ rawStr h1e hcoll hlog1, h1st]
  have hg3 : optStrTruthy (stage2 o s0).st.raw_data_json = true := by
    rw [h2st]
    show optStrTruthy (some rawStr) = true
    exact optStrTruthy_some _ hrawne
  have h3st : (stage3 o s0).st = (stage2 o s0).st := by
    show (classificar_dados o (stage2 o s0)).st = _
    exact classificar_err_st o _ _ hg3 hclsr
  have hid2 : optIntTruthy (stage2 o s0).st.search_query_id = true := by
    rw [h2st]
    show optIntTruthy s0.search_query_id = true
    rw [hq]
    simp [optIntTruthy, hqz]
  have hid2v : (stage2 o s0).st.search_query_id = some qid := by
    rw [h2st]
    show s0.search_query_id = some qid
    exact hq
  have h3cls : (stage3 o s0).st.classified_data_json = none := by
    rw [h3st, h2st]
    show s0.classified_data_json = none
    exact hcls0
  have h3an : (stage3 o s0).st.analysis_results_json = none := by
    rw [h3st, h2st]
    show s0.analysis_results_json = none
    exact han0
  have h4 : stage4 o s0 = stage3 o s0 := by
    show analisar_dados o (stage3 o s0) = stage3 o s0
    exact analisar_skip o _ (by rw [h3cls]; rfl)
  have h5 : stage5 o s0 = stage4 o s0 := by
    show gerar_visualizacoes o (stage4 o s0) = stage4 o s0
    exact gerar_skip o _ (by rw [h4, h3an]; rfl)
  have hc5st : (stage5 o s0).st = (stage2 o s0).st := by
    rw [h5, h4, h3st]
  have hrawload : safeJsonLoad (stage5 o s0).st.raw_data_json (.arr []) =
      (jsonParse rawStr).getD (.arr []) := by
    rw [hc5st, h2st]
    show safeJsonLoad (some rawStr) (.arr []) = _
    simp [safeJsonLoad, hrawne]
  have hanload : safeJsonLoad (stage5 o s0).st.analysis_results_json (.obj []) = .obj [] := by
    rw [hc5st, h2st]
    show safeJsonLoad s0.analysis_results_json (.obj []) = _
    rw [han0]
    rfl
  obtain ⟨n, hn0⟩ := Option.isSome_iff_exists.mp hlen
  have hn : pyLen (safeJsonLoad (stage5 o s0).st.raw_data_json (.arr [])) = some n := by
    rw [hrawload]
    exact hn0
  have hi : pyDictGet (safeJsonLoad (stage5 o s0).st.analysis_results_json (.obj []))
      "insights" (.str "Nenhum insight gerado.") =
      some (.str "Nenhum insight gerado.") := by
    rw [hanload]
    rfl
  have hgen := generate_ok_st o (stage5 o s0) n (.str "Nenhum insight gerado.") jm hn hi henq
  refine ⟨?_, ?_, ?_⟩
  · show (generate_final_report o (stage5 o s0)).st.error_message = none
    rw [hgen]
    show (stage5 o s0).st.error_message = none
    rw [hc5st, h2st]
    show s0.error_message = none
    exact herr0
  · refine ⟨generatedReport o (stage5 o s0) n (.str "Nenhum insight gerado.")
        (some ⟨jm.job_id, jm.status, jm.output_path⟩), ?_, ?_, rfl⟩
    · show (generate_final_report o (stage5 o s0)).st.final_report = some _
      rw [hgen]
      rfl
    · show n = (pyLen ((jsonParse rawStr).getD (.arr []))).getD 0
      rw [hn0]
      rfl
  · have hmem3 : (some qid, "Erro na classificação: " ++
        ("Falha ao executar a task após " ++ toString 2 ++ " tentativas: " ++ es 1))
        ∈ (stage3 o s0).logs := by
      have hlogs := classificar_err_logs o (stage2 o s0) _ hg3 hclsr hid2
      rw [show classificar_dados o (stage2 o s0) = stage3 o s0 from rfl] at hlogs
      rw [hlogs, hid2v]
      simp
    have hmem5 : (some qid, "Erro na classificação: " ++
        ("Falha ao executar a task após " ++ toString 2 ++ " tentativas: " ++ es 1))
        ∈ (stage5 o s0).logs := by
      rw [h5, h4]
      exact hmem3
    exact generate_logs_mono o (stage5 o s0) _ hmem5

/-- Fresh valid initial state for the classification-failure behaviour. -/
def s0C4 : FlowState := ⟨some 1, "q", none, none, none, none, none, none⟩

/-- Outcomes where collection succeeds and the classification capability
raises on every retry. -/
def oC4 : RunOutcomes :=
  ⟨fun _ => .ok (.pstr "[1]"), none, fun _ => .error "boom", none,
   fun _ => .ok (.pstr "[]"), none, fun _ => .ok (.pstr "[]"), .ok emptyMeta, none⟩

/-- Witness for classification_failure_no_error at a concrete run. -/
theorem classification_failure_no_error_witness :
    (runFlow oC4 s0C4).st.error_message = none :=
  (classification_failure_no_error oC4 s0C4 1 "[1]" (fun _ => "boom") emptyMeta
    rfl (by decide) (by decide) rfl rfl rfl rfl rfl rfl (by decide) rfl
    (fun _ => rfl) (by decide) rfl).1

/-- Fresh valid initial state for the C4 counterexample. -/
def s0C4c : FlowState := ⟨some 1, "qq", none, none, none, none, none, none⟩

/-- Outcomes for the C4 counterexample: classification raises on every
retry. -/
def oC4c : RunOutcomes :=
  ⟨fun _ => .ok (.pstr "[1, 2]"), none, fun _ => .error "timeout", none,
   fun _ => .ok (.pstr "[]"), none, fun _ => .ok (.pstr "[]"), .ok emptyMeta, none⟩

/-- C4 counterexample: the classification capability raises on every
retry, yet at the end of the run error_message is still None — the claim
that the error is recorded in PipelineState.error_message (and hence
appears in the final report) is false; the run does produce a report. -/
theorem classification_failure_cex :
    (runFlow oC4c s0C4c).st.error_message = none ∧
    (kickoff oC4c s0C4c).isSome = true := by
  constructor
  · rfl
  · rfl
